import Mathlib

/-!
Shallow embedding of the progressive income-tax calculation engine of the
tax-g-backend repository.

Monetary amounts are modelled as exact rationals (`ℚ`): the source performs
all currency math with `decimal.js` exact decimal arithmetic (addition,
subtraction, multiplication by a decimal rate, `min`, `max`, `floor`,
division by 1000), all of which are exact over the rationals for the
magnitudes involved.

Two parallel implementations exist in the source:
  * `TaxCalculator` (class with static methods; withholding-aware mode),
  * `taxCalculationService` (module-level functions; credit-only mode).
Each is embedded in its own namespace, keeping the source's names.
-/

namespace TaxG

/-- The Prisma `FilingStatus` enum. -/
inductive FilingStatus where
  | SINGLE
  | MARRIED_FILING_JOINTLY
  | MARRIED_FILING_SEPARATELY
  | HEAD_OF_HOUSEHOLD
  | QUALIFYING_SURVIVING_SPOUSE
deriving DecidableEq, Repr

/-- The Prisma `IncomeType` enum (values as validated by the routes layer). -/
inductive IncomeType where
  | W2_WAGES
  | INTEREST
  | DIVIDENDS
  | BUSINESS_INCOME
  | CAPITAL_GAINS
  | OTHER_INCOME
  | UNEMPLOYMENT
  | RETIREMENT_DISTRIBUTIONS
  | SOCIAL_SECURITY
deriving DecidableEq, Repr

/-- The Prisma `DeductionType` enum (values as validated by the routes layer). -/
inductive DeductionType where
  | MORTGAGE_INTEREST
  | STATE_LOCAL_TAXES
  | CHARITABLE_CONTRIBUTIONS
  | MEDICAL_EXPENSES
  | BUSINESS_EXPENSES
  | STUDENT_LOAN_INTEREST
  | IRA_CONTRIBUTIONS
  | OTHER_DEDUCTIONS
deriving DecidableEq, Repr

/-- One bracket row `{ min, max, rate }` of a bracket table.  `max = none`
models the JavaScript `Infinity` literal of the unbounded top bracket. -/
structure Bracket where
  min : ℚ
  max : Option ℚ
  rate : ℚ
deriving DecidableEq, Repr

/-- An income entry `{ incomeType, amount }`. -/
structure IncomeEntry where
  incomeType : IncomeType
  amount : ℚ
deriving DecidableEq, Repr

/-- A deduction entry `{ deductionType, amount }`. -/
structure DeductionEntry where
  deductionType : DeductionType
  amount : ℚ
deriving DecidableEq, Repr

/-- `TaxCalculationResult`: the result interface is identical (same nine
`Decimal` fields) in both implementations. -/
structure TaxCalculationResult where
  totalIncome : ℚ
  adjustedGrossIncome : ℚ
  standardDeduction : ℚ
  itemizedDeduction : ℚ
  taxableIncome : ℚ
  taxLiability : ℚ
  totalCredits : ℚ
  refundAmount : ℚ
  amountOwed : ℚ
deriving DecidableEq, Repr

namespace TaxCalculator

/-- `TaxCalculationInput` of `taxCalculator.ts` (the `TaxCalculator` class
implementation): note a single `dependents : number` field. -/
structure TaxCalculationInput where
  filingStatus : FilingStatus
  taxYear : ℤ
  incomeEntries : List IncomeEntry
  deductionEntries : List DeductionEntry
  dependents : ℕ
deriving DecidableEq, Repr

/-- JavaScript `Number.MAX_SAFE_INTEGER` = 2^53 − 1, substituted for
`Infinity` in `calculateTaxLiability`. -/
def MAX_SAFE_INTEGER : ℚ := 9007199254740991

/-- `TAX_BRACKETS_2023` object literal: keyed by four of the five filing
statuses; there is no entry for `QUALIFYING_SURVIVING_SPOUSE` (`none`). -/
def TAX_BRACKETS_2023 : FilingStatus → Option (List Bracket)
  | .SINGLE => some
      [ ⟨0, some 11000, 0.10⟩
      , ⟨11000, some 44725, 0.12⟩
      , ⟨44725, some 95375, 0.22⟩
      , ⟨95375, some 182050, 0.24⟩
      , ⟨182050, some 231250, 0.32⟩
      , ⟨231250, some 578125, 0.35⟩
      , ⟨578125, none, 0.37⟩ ]
  | .MARRIED_FILING_JOINTLY => some
      [ ⟨0, some 22000, 0.10⟩
      , ⟨22000, some 89450, 0.12⟩
      , ⟨89450, some 190750, 0.22⟩
      , ⟨190750, some 364200, 0.24⟩
      , ⟨364200, some 462500, 0.32⟩
      , ⟨462500, some 693750, 0.35⟩
      , ⟨693750, none, 0.37⟩ ]
  | .MARRIED_FILING_SEPARATELY => some
      [ ⟨0, some 11000, 0.10⟩
      , ⟨11000, some 44725, 0.12⟩
      , ⟨44725, some 95375, 0.22⟩
      , ⟨95375, some 182100, 0.24⟩
      , ⟨182100, some 231250, 0.32⟩
      , ⟨231250, some 346875, 0.35⟩
      , ⟨346875, none, 0.37⟩ ]
  | .HEAD_OF_HOUSEHOLD => some
      [ ⟨0, some 15700, 0.10⟩
      , ⟨15700, some 59850, 0.12⟩
      , ⟨59850, some 95350, 0.22⟩
      , ⟨95350, some 182050, 0.24⟩
      , ⟨182050, some 231250, 0.32⟩
      , ⟨231250, some 578100, 0.35⟩
      , ⟨578100, none, 0.37⟩ ]
  | .QUALIFYING_SURVIVING_SPOUSE => none

/-- `STANDARD_DEDUCTIONS_2023` object literal: an entry for every filing
status. -/
def STANDARD_DEDUCTIONS_2023 : FilingStatus → Option ℚ
  | .SINGLE => some 13850
  | .MARRIED_FILING_JOINTLY => some 27700
  | .MARRIED_FILING_SEPARATELY => some 13850
  | .HEAD_OF_HOUSEHOLD => some 20800
  | .QUALIFYING_SURVIVING_SPOUSE => some 27700

/-- The bracket lookup of `calculateTaxLiability`:
`this.TAX_BRACKETS_2023[filingStatus] || this.TAX_BRACKETS_2023[FilingStatus.SINGLE]`
— an absent key silently falls back to the SINGLE schedule. -/
def bracketsLookup (filingStatus : FilingStatus) : List Bracket :=
  ((TAX_BRACKETS_2023 filingStatus).or (TAX_BRACKETS_2023 .SINGLE)).getD []

/-- The bracket `for` loop body of `TaxCalculator.calculateTaxLiability`:
walks the brackets, accumulating `tax`, breaking once `remainingIncome ≤ 0`;
the `Infinity` upper edge is replaced by `Number.MAX_SAFE_INTEGER`. -/
def liabilityLoop : List Bracket → ℚ → ℚ → ℚ
  | [], tax, _ => tax
  | bracket :: rest, tax, remainingIncome =>
    if remainingIncome ≤ 0 then tax
    else
      let bracketMin := bracket.min
      let bracketMax := match bracket.max with
        | some m => m
        | none => MAX_SAFE_INTEGER
      let bracketWidth := bracketMax - bracketMin
      let taxableInThisBracket := min remainingIncome bracketWidth
      let taxForBracket := taxableInThisBracket * bracket.rate
      liabilityLoop rest (tax + taxForBracket) (remainingIncome - taxableInThisBracket)

/-- `TaxCalculator.calculateTaxLiability`. -/
def calculateTaxLiability (taxableIncome : ℚ) (filingStatus : FilingStatus) : ℚ :=
  liabilityLoop (bracketsLookup filingStatus) 0 taxableIncome

/-- `TaxCalculator.calculateEITC`. -/
def calculateEITC (agi : ℚ) (dependents : ℕ) (filingStatus : FilingStatus) : ℚ :=
  if dependents = 0 then 0
  else
    let maxCredit : ℚ := if dependents = 1 then 3733 else if dependents = 2 then 6164 else 6935
    let phaseOutStart : ℚ := if filingStatus = .MARRIED_FILING_JOINTLY then 25220 else 19330
    if agi < phaseOutStart then maxCredit
    else
      let phaseOutRate : ℚ := 0.2106
      let phaseOut := (agi - phaseOutStart) * phaseOutRate
      max (maxCredit - phaseOut) 0

/-- `TaxCalculator.calculateCredits`: accumulates the Child Tax Credit
(with AGI phase-out), then adds the EITC when `agi < 50000 && dependents > 0`. -/
def calculateCredits (dependents : ℕ) (agi : ℚ) (filingStatus : FilingStatus) : ℚ :=
  let credits : ℚ := 0
  let childTaxCredit : ℚ := (dependents : ℚ) * 2000
  let phaseOutThreshold : ℚ :=
    if filingStatus = .MARRIED_FILING_JOINTLY then 400000 else 200000
  let credits :=
    if phaseOutThreshold < agi then
      let phaseOutAmount : ℚ := (⌊(agi - phaseOutThreshold) / 1000⌋ : ℚ) * 50
      credits + max (childTaxCredit - phaseOutAmount) 0
    else
      credits + childTaxCredit
  let credits :=
    if agi < 50000 ∧ 0 < dependents then credits + calculateEITC agi dependents filingStatus
    else credits
  credits

/-- `TaxCalculator.calculateWithheld`: `forEach` accumulation over the income
entries. -/
def calculateWithheld (incomeEntries : List IncomeEntry) : ℚ :=
  incomeEntries.foldl
    (fun withheld entry =>
      if entry.incomeType = .W2_WAGES then withheld + entry.amount * 0.15
      else if entry.incomeType = .INTEREST ∨ entry.incomeType = .DIVIDENDS then
        withheld + entry.amount * 0.10
      else withheld)
    0

/-- `TaxCalculator.calculateAGI`: the `forEach` body performs no adjustment,
so the AGI is the total income unchanged. -/
def calculateAGI (totalIncome : ℚ) (_incomeEntries : List IncomeEntry) : ℚ :=
  totalIncome

/-- `TaxCalculator.calculateTax`, the withholding-aware orchestrator. -/
def calculateTax (input : TaxCalculationInput) : TaxCalculationResult :=
  let totalIncome := input.incomeEntries.foldl (fun sum entry => sum + entry.amount) 0
  let adjustedGrossIncome := calculateAGI totalIncome input.incomeEntries
  let standardDeduction := (STANDARD_DEDUCTIONS_2023 input.filingStatus).getD 13850
  let itemizedDeduction := input.deductionEntries.foldl (fun sum entry => sum + entry.amount) 0
  let deduction := max standardDeduction itemizedDeduction
  let taxableIncome := max (adjustedGrossIncome - deduction) 0
  let taxLiability := calculateTaxLiability taxableIncome input.filingStatus
  let totalCredits := calculateCredits input.dependents adjustedGrossIncome input.filingStatus
  let netTax := max (taxLiability - totalCredits) 0
  let withheld := calculateWithheld input.incomeEntries
  let refundAmount := max (withheld - netTax) 0
  let amountOwed := max (netTax - withheld) 0
  { totalIncome := totalIncome
    adjustedGrossIncome := adjustedGrossIncome
    standardDeduction := standardDeduction
    itemizedDeduction := itemizedDeduction
    taxableIncome := taxableIncome
    taxLiability := taxLiability
    totalCredits := totalCredits
    refundAmount := refundAmount
    amountOwed := amountOwed }

/-- The effective upper edge of a bracket as `calculateTaxLiability` computes
it: `bracket.max === Infinity ? Number.MAX_SAFE_INTEGER : bracket.max`. -/
def upperEdge (b : Bracket) : ℚ := b.max.getD MAX_SAFE_INTEGER

/-- Specification-side stateless marginal share of one bracket: the slice of
income `x` that falls between the bracket's lower bound and effective upper
edge, taxed at the bracket's rate. -/
def marginalShare (x : ℚ) (b : Bracket) : ℚ :=
  b.rate * max (min x (upperEdge b) - b.min) 0

/-- Specification-side marginal tax: the sum over the brackets of each
bracket's marginal share of the income `x` (never a flat rate on `x`). -/
def marginalSum (bs : List Bracket) (x : ℚ) : ℚ :=
  (bs.map (marginalShare x)).sum

/-- The bracket list is a contiguous ascending chain starting at `m`: each
bracket's lower bound is the previous effective upper edge. -/
def chainFrom : ℚ → List Bracket → Prop
  | _, [] => True
  | m, b :: rest => b.min = m ∧ b.min ≤ upperEdge b ∧ chainFrom (upperEdge b) rest

end TaxCalculator

namespace taxCalculationService

/-- `TAX_BRACKETS_SINGLE` of `taxCalculationService.js` (2023, Single). -/
def TAX_BRACKETS_SINGLE : List Bracket :=
  [ ⟨0, some 11000, 0.10⟩
  , ⟨11000, some 44725, 0.12⟩
  , ⟨44725, some 95375, 0.22⟩
  , ⟨95375, some 182050, 0.24⟩
  , ⟨182050, some 231250, 0.32⟩
  , ⟨231250, some 578125, 0.35⟩
  , ⟨578125, none, 0.37⟩ ]

/-- `TAX_BRACKETS_MARRIED` of `taxCalculationService.js` (2023, MFJ). -/
def TAX_BRACKETS_MARRIED : List Bracket :=
  [ ⟨0, some 22000, 0.10⟩
  , ⟨22000, some 89450, 0.12⟩
  , ⟨89450, some 190750, 0.22⟩
  , ⟨190750, some 364200, 0.24⟩
  , ⟨364200, some 462500, 0.32⟩
  , ⟨462500, some 693750, 0.35⟩
  , ⟨693750, none, 0.37⟩ ]

/-- `STANDARD_DEDUCTIONS` of `taxCalculationService.js`: an entry for every
filing status. -/
def STANDARD_DEDUCTIONS : FilingStatus → Option ℚ
  | .SINGLE => some 13850
  | .MARRIED_FILING_JOINTLY => some 27700
  | .MARRIED_FILING_SEPARATELY => some 13850
  | .HEAD_OF_HOUSEHOLD => some 20800
  | .QUALIFYING_SURVIVING_SPOUSE => some 27700

/-- A dependent record as used by `calculateCredits`: only the
`isQualifyingChild` flag matters to the computation. -/
structure Dependent where
  isQualifyingChild : Bool
deriving DecidableEq, Repr

/-- The tax-return snapshot consumed by `calculateTaxes`: income entries,
deduction entries, dependent records and a filing status. -/
structure TaxReturnData where
  filingStatus : FilingStatus
  incomeEntries : List IncomeEntry
  deductionEntries : List DeductionEntry
  dependents : List Dependent
deriving DecidableEq, Repr

/-- The bracket selection shared by `calculateTaxLiability` and
`getTaxBrackets`: MFJ and QSS get the married table, every other status the
single table. -/
def getTaxBrackets (filingStatus : FilingStatus) : List Bracket :=
  if filingStatus = .MARRIED_FILING_JOINTLY ∨ filingStatus = .QUALIFYING_SURVIVING_SPOUSE then
    TAX_BRACKETS_MARRIED
  else
    TAX_BRACKETS_SINGLE

/-- The bracket `for` loop of `taxCalculationService.calculateTaxLiability`:
breaks once `remainingIncome ≤ 0`; the top bracket's `Infinity` upper edge
makes `min(remaining, max − min)` collapse to `remaining`; a bracket only
contributes when `taxableInThisBracket > 0`. -/
def liabilityLoop : List Bracket → ℚ → ℚ → ℚ
  | [], tax, _ => tax
  | bracket :: rest, tax, remainingIncome =>
    if remainingIncome ≤ 0 then tax
    else
      let taxableInThisBracket :=
        match bracket.max with
        | some m => min remainingIncome (m - bracket.min)
        | none => remainingIncome
      if 0 < taxableInThisBracket then
        liabilityLoop rest (tax + taxableInThisBracket * bracket.rate)
          (remainingIncome - taxableInThisBracket)
      else
        liabilityLoop rest tax remainingIncome

/-- `taxCalculationService.calculateTaxLiability`. -/
def calculateTaxLiability (taxableIncome : ℚ) (filingStatus : FilingStatus) : ℚ :=
  liabilityLoop (getTaxBrackets filingStatus) 0 taxableIncome

/-- `taxCalculationService.calculateCredits`: only the (un-phased-out) Child
Tax Credit, `qualifyingChildren.length × 2000`; no EITC. -/
def calculateCredits (taxReturn : TaxReturnData) : ℚ :=
  let credits : ℚ := 0
  let qualifyingChildren := taxReturn.dependents.filter (fun dep => dep.isQualifyingChild)
  let childTaxCredit : ℚ := (qualifyingChildren.length : ℚ) * 2000
  credits + childTaxCredit

/-- `taxCalculationService.getStandardDeduction`:
`STANDARD_DEDUCTIONS[filingStatus] || STANDARD_DEDUCTIONS.SINGLE`. -/
def getStandardDeduction (filingStatus : FilingStatus) : ℚ :=
  ((STANDARD_DEDUCTIONS filingStatus).or (STANDARD_DEDUCTIONS .SINGLE)).getD 0

/-- `taxCalculationService.calculateTaxes`, the credit-only orchestrator:
`refundAmount = totalCredits > taxLiability ? totalCredits − taxLiability : 0`
and `amountOwed = netTax`. -/
def calculateTaxes (taxReturn : TaxReturnData) : TaxCalculationResult :=
  let totalIncome := taxReturn.incomeEntries.foldl (fun sum entry => sum + entry.amount) 0
  let adjustedGrossIncome := totalIncome
  let itemizedDeduction := taxReturn.deductionEntries.foldl (fun sum entry => sum + entry.amount) 0
  let standardDeduction := ((STANDARD_DEDUCTIONS taxReturn.filingStatus).or (STANDARD_DEDUCTIONS .SINGLE)).getD 0
  let deductionToUse := max standardDeduction itemizedDeduction
  let taxableIncome := max (adjustedGrossIncome - deductionToUse) 0
  let taxLiability := calculateTaxLiability taxableIncome taxReturn.filingStatus
  let totalCredits := calculateCredits taxReturn
  let netTax := max (taxLiability - totalCredits) 0
  let refundAmount := if taxLiability < totalCredits then totalCredits - taxLiability else 0
  let amountOwed := netTax
  { totalIncome := totalIncome
    adjustedGrossIncome := adjustedGrossIncome
    standardDeduction := standardDeduction
    itemizedDeduction := itemizedDeduction
    taxableIncome := taxableIncome
    taxLiability := taxLiability
    totalCredits := totalCredits
    refundAmount := refundAmount
    amountOwed := amountOwed }

/-- Specification-side stateless marginal share of one bracket for the
`taxCalculationService` loop, whose top bracket's upper edge is a true
`Infinity` (no cap). -/
def bracketShare (x : ℚ) (b : Bracket) : ℚ :=
  match b.max with
  | some m => b.rate * max (min x m - b.min) 0
  | none => b.rate * max (x - b.min) 0

/-- Specification-side marginal tax for the `taxCalculationService` loop. -/
def bracketSum (bs : List Bracket) (x : ℚ) : ℚ :=
  (bs.map (bracketShare x)).sum

/-- The bracket list is a contiguous ascending chain starting at `m`, with an
unbounded bracket allowed only in the last position. -/
def chainFrom : ℚ → List Bracket → Prop
  | _, [] => True
  | m, b :: rest =>
    b.min = m ∧
      match b.max with
      | some mx => m ≤ mx ∧ chainFrom mx rest
      | none => rest = []

end taxCalculationService

/-- The empty input for the withholding-aware engine: no income, no
deductions, no dependents, filing SINGLE for 2023. -/
def emptyInput : TaxCalculator.TaxCalculationInput :=
  ⟨.SINGLE, 2023, [], [], 0⟩

/-- A SINGLE 2023 return with $250,000 of W-2 wages and one qualifying-child
dependent, as the credit-only engine consumes it. -/
def return250k : taxCalculationService.TaxReturnData :=
  ⟨.SINGLE, [⟨.W2_WAGES, 250000⟩], [], [⟨true⟩]⟩

/-- The same data shaped for the withholding-aware engine, which its caller
feeds `dependents: taxReturn.dependents.length`. -/
def input250k : TaxCalculator.TaxCalculationInput :=
  ⟨.SINGLE, 2023, [⟨.W2_WAGES, 250000⟩], [], 1⟩

/-- Specification-side Child Tax Credit formula, following the spec's words:
base `count × $2000`; threshold `$400,000` for MFJ else `$200,000`; at or
below the threshold the base applies, above it the base is reduced by
`floor((AGI − threshold)/$1000) × $50`, floored at zero. -/
def ctcSpec (count : ℕ) (agi : ℚ) (filingStatus : FilingStatus) : ℚ :=
  let threshold : ℚ := if filingStatus = .MARRIED_FILING_JOINTLY then 400000 else 200000
  if agi ≤ threshold then (count : ℚ) * 2000
  else max ((count : ℚ) * 2000 - (⌊(agi - threshold) / 1000⌋ : ℚ) * 50) 0

/-- Specification-side Earned Income Tax Credit formula, following the spec's
words: tiers $3733 / $6164 / $6935 by dependent count (0 dependents → $0);
phase-out start `$25,220` for MFJ else `$19,330`; below the start the tier
maximum applies, otherwise it is reduced at rate 0.2106 per dollar of excess
AGI, floored at zero. -/
def eitcSpec (count : ℕ) (agi : ℚ) (filingStatus : FilingStatus) : ℚ :=
  if count = 0 then 0
  else
    let maxCredit : ℚ := if count = 1 then 3733 else if count = 2 then 6164 else 6935
    let phaseOutStart : ℚ := if filingStatus = .MARRIED_FILING_JOINTLY then 25220 else 19330
    if agi < phaseOutStart then maxCredit
    else max (maxCredit - (agi - phaseOutStart) * 0.2106) 0

end TaxG

open TaxG

/-! ### Structural lemmas about the `TaxCalculator` bracket loop -/

/-- One unfolding step of the `TaxCalculator` bracket loop, phrased with
`upperEdge`. -/
theorem tc_liabilityLoop_cons (b : Bracket) (rest : List Bracket) (t r : ℚ) :
    TaxCalculator.liabilityLoop (b :: rest) t r =
      if r ≤ 0 then t
      else
        TaxCalculator.liabilityLoop rest
          (t + min r (TaxCalculator.upperEdge b - b.min) * b.rate)
          (r - min r (TaxCalculator.upperEdge b - b.min)) := by
  cases hb : b.max <;>
    simp [TaxCalculator.liabilityLoop, TaxCalculator.upperEdge, hb]

/-- The `tax` accumulator of the loop merely shifts the result. -/
theorem tc_liabilityLoop_acc (bs : List Bracket) (t r : ℚ) :
    TaxCalculator.liabilityLoop bs t r = t + TaxCalculator.liabilityLoop bs 0 r := by
  induction bs generalizing t r with
  | nil => simp [TaxCalculator.liabilityLoop]
  | cons b rest ih =>
    by_cases h : r ≤ 0
    · simp [tc_liabilityLoop_cons, h]
    · rw [tc_liabilityLoop_cons, tc_liabilityLoop_cons, if_neg h, if_neg h, ih, ih (0 + _)]
      ring

/-- The loop returns the accumulator unchanged once no income remains. -/
theorem tc_liabilityLoop_of_nonpos (bs : List Bracket) (r : ℚ) (h : r ≤ 0) :
    TaxCalculator.liabilityLoop bs 0 r = 0 := by
  cases bs with
  | nil => rfl
  | cons b rest => rw [tc_liabilityLoop_cons, if_pos h]

/-- Below the chain's starting bound every marginal share vanishes. -/
theorem tc_marginalSum_of_le (bs : List Bracket) (m x : ℚ)
    (h : TaxCalculator.chainFrom m bs) (hx : x ≤ m) :
    TaxCalculator.marginalSum bs x = 0 := by
  induction bs generalizing m with
  | nil => simp [TaxCalculator.marginalSum]
  | cons b rest ih =>
    obtain ⟨hmin, hle, hch⟩ := h
    have hshare : TaxCalculator.marginalShare x b = 0 := by
      have h1 : min x (TaxCalculator.upperEdge b) - b.min ≤ 0 := by
        have := min_le_left x (TaxCalculator.upperEdge b)
        have hxb : x ≤ b.min := hmin ▸ hx
        linarith
      simp [TaxCalculator.marginalShare, max_eq_right h1]
    have hrest : TaxCalculator.marginalSum rest x = 0 :=
      ih (TaxCalculator.upperEdge b) hch (hx.trans (hmin ▸ hle))
    simp [TaxCalculator.marginalSum, List.map_cons, hshare] at hrest ⊢
    simpa [TaxCalculator.marginalSum] using hrest

/-- The stateful bracket walk equals the stateless marginal sum on any
contiguous ascending bracket chain. -/
theorem tc_liabilityLoop_eq_marginalSum (bs : List Bracket) (m x : ℚ)
    (h : TaxCalculator.chainFrom m bs) :
    TaxCalculator.liabilityLoop bs 0 (x - m) = TaxCalculator.marginalSum bs x := by
  induction bs generalizing m with
  | nil => simp [TaxCalculator.liabilityLoop, TaxCalculator.marginalSum]
  | cons b rest ih =>
    obtain ⟨hmin, hle, hch⟩ := h
    subst hmin
    set u := TaxCalculator.upperEdge b with hu
    have hw : 0 ≤ u - b.min := by linarith
    by_cases h0 : x - b.min ≤ 0
    · rw [tc_liabilityLoop_cons, if_pos h0]
      have hshare : TaxCalculator.marginalShare x b = 0 := by
        have h1 : min x u - b.min ≤ 0 := by
          have := min_le_left x u
          linarith
        simp [TaxCalculator.marginalShare, ← hu, max_eq_right h1]
      have hrest : TaxCalculator.marginalSum rest x = 0 :=
        tc_marginalSum_of_le rest u x hch (by linarith)
      simp only [TaxCalculator.marginalSum, List.map_cons, List.sum_cons] at hrest ⊢
      rw [hshare, hrest]
      ring
    · rw [tc_liabilityLoop_cons, if_neg h0, ← hu]
      set t := min (x - b.min) (u - b.min) with ht
      have ht0 : 0 ≤ t := le_min (by linarith) hw
      have hmin_sub : min x u - b.min = t := by
        rw [ht]
        exact (min_sub_sub_right x u b.min).symm
      have hshare : TaxCalculator.marginalShare x b = b.rate * t := by
        rw [TaxCalculator.marginalShare, ← hu, hmin_sub, max_eq_left ht0]
      rw [tc_liabilityLoop_acc]
      by_cases hcase : u - b.min ≤ x - b.min
      · have htw : t = u - b.min := min_eq_right hcase
        have hrem : x - b.min - t = x - u := by rw [htw]; ring
        rw [hrem, ih u hch]
        simp only [TaxCalculator.marginalSum, List.map_cons, List.sum_cons, hshare]
        ring
      · have hxu : x ≤ u := by
          have := not_le.mp hcase
          linarith
        have htw : t = x - b.min := min_eq_left (le_of_not_le hcase)
        have hrem : x - b.min - t = 0 := by rw [htw]; ring
        rw [hrem, tc_liabilityLoop_of_nonpos rest 0 le_rfl]
        have hrest : TaxCalculator.marginalSum rest x = 0 :=
          tc_marginalSum_of_le rest u x hch hxu
        simp only [TaxCalculator.marginalSum, List.map_cons, List.sum_cons] at hrest ⊢
        rw [hshare, hrest]
        ring

/-- Every bracket table `calculateTaxLiability` can select (including the
silent SINGLE fallback) is a contiguous ascending chain starting at 0. -/
theorem tc_chain_bracketsLookup (fs : FilingStatus) :
    TaxCalculator.chainFrom 0 (TaxCalculator.bracketsLookup fs) := by
  cases fs <;>
    · simp only [TaxCalculator.bracketsLookup, TaxCalculator.TAX_BRACKETS_2023,
        Option.or, Option.getD, TaxCalculator.chainFrom, TaxCalculator.upperEdge,
        TaxCalculator.MAX_SAFE_INTEGER]
      norm_num

/-- `TaxCalculator.calculateTaxLiability` is exactly the stateless marginal
sum over its bracket table. -/
theorem tc_calculateTaxLiability_eq_marginalSum (x : ℚ) (fs : FilingStatus) :
    TaxCalculator.calculateTaxLiability x fs =
      TaxCalculator.marginalSum (TaxCalculator.bracketsLookup fs) x := by
  have h := tc_liabilityLoop_eq_marginalSum (TaxCalculator.bracketsLookup fs) 0 x
    (tc_chain_bracketsLookup fs)
  simpa [TaxCalculator.calculateTaxLiability] using h

/-- Every bracket of every selectable table has a nonnegative rate and an
effective upper edge of at most `Number.MAX_SAFE_INTEGER`. -/
theorem tc_bracket_facts (fs : FilingStatus) (b : Bracket)
    (hb : b ∈ TaxCalculator.bracketsLookup fs) :
    0 ≤ b.rate ∧ TaxCalculator.upperEdge b ≤ TaxCalculator.MAX_SAFE_INTEGER := by
  cases fs <;>
    · simp only [TaxCalculator.bracketsLookup, TaxCalculator.TAX_BRACKETS_2023,
        Option.or, Option.getD, List.mem_cons, List.not_mem_nil, or_false] at hb
      rcases hb with rfl | rfl | rfl | rfl | rfl | rfl | rfl <;>
        · constructor <;>
            norm_num [TaxCalculator.upperEdge, TaxCalculator.MAX_SAFE_INTEGER]

/-- Each marginal share is nonnegative when the bracket's rate is. -/
theorem tc_marginalShare_nonneg (x : ℚ) (b : Bracket) (hr : 0 ≤ b.rate) :
    0 ≤ TaxCalculator.marginalShare x b :=
  mul_nonneg hr (le_max_right _ 0)

/-- Each marginal share is monotone in the income when the rate is
nonnegative. -/
theorem tc_marginalShare_mono (x y : ℚ) (b : Bracket) (hr : 0 ≤ b.rate)
    (hxy : x ≤ y) : TaxCalculator.marginalShare x b ≤ TaxCalculator.marginalShare y b := by
  unfold TaxCalculator.marginalShare
  have h1 : min x (TaxCalculator.upperEdge b) ≤ min y (TaxCalculator.upperEdge b) :=
    min_le_min hxy le_rfl
  exact mul_le_mul_of_nonneg_left (max_le_max (by linarith) le_rfl) hr

/-- The marginal sum is nonnegative whenever every rate is. -/
theorem tc_marginalSum_nonneg (bs : List Bracket) (x : ℚ)
    (h : ∀ b ∈ bs, 0 ≤ b.rate) : 0 ≤ TaxCalculator.marginalSum bs x := by
  refine List.sum_nonneg ?_
  intro q hq
  simp only [List.mem_map] at hq
  obtain ⟨b, hb, rfl⟩ := hq
  exact tc_marginalShare_nonneg x b (h b hb)

/-- The marginal sum is monotone in the income whenever every rate is
nonnegative. -/
theorem tc_marginalSum_mono (bs : List Bracket) (x y : ℚ)
    (h : ∀ b ∈ bs, 0 ≤ b.rate) (hxy : x ≤ y) :
    TaxCalculator.marginalSum bs x ≤ TaxCalculator.marginalSum bs y := by
  refine List.sum_le_sum ?_
  intro b hb
  exact tc_marginalShare_mono x y b (h b hb) hxy

/-! ### Structural lemmas about the `taxCalculationService` bracket loop -/

/-- The `tax` accumulator of the `taxCalculationService` loop merely shifts
the result. -/
theorem svc_liabilityLoop_acc (bs : List Bracket) (t r : ℚ) :
    taxCalculationService.liabilityLoop bs t r =
      t + taxCalculationService.liabilityLoop bs 0 r := by
  induction bs generalizing t r with
  | nil => simp [taxCalculationService.liabilityLoop]
  | cons b rest ih =>
    by_cases h : r ≤ 0
    · simp [taxCalculationService.liabilityLoop, h]
    · cases hb : b.max with
      | some mx =>
        by_cases hpos : 0 < min r (mx - b.min)
        · simp only [taxCalculationService.liabilityLoop, if_neg h, hb, if_pos hpos]
          rw [ih, ih (0 + _)]
          ring
        · simp only [taxCalculationService.liabilityLoop, if_neg h, hb, if_neg hpos]
          rw [ih, ih (0 : ℚ)]
      | none =>
        have hpos : 0 < r := lt_of_not_le h
        simp only [taxCalculationService.liabilityLoop, if_neg h, hb, if_pos hpos]
        rw [ih, ih (0 + _)]
        ring

/-- The `taxCalculationService` loop returns the accumulator unchanged once
no income remains. -/
theorem svc_liabilityLoop_of_nonpos (bs : List Bracket) (r : ℚ) (h : r ≤ 0) :
    taxCalculationService.liabilityLoop bs 0 r = 0 := by
  cases bs with
  | nil => rfl
  | cons b rest => simp [taxCalculationService.liabilityLoop, h]

/-- Below the chain's starting bound every bracket share vanishes. -/
theorem svc_bracketSum_of_le (bs : List Bracket) (m x : ℚ)
    (h : taxCalculationService.chainFrom m bs) (hx : x ≤ m) :
    taxCalculationService.bracketSum bs x = 0 := by
  induction bs generalizing m with
  | nil => simp [taxCalculationService.bracketSum]
  | cons b rest ih =>
    obtain ⟨hmin, hrest⟩ := h
    cases hb : b.max with
    | some mx =>
      rw [hb] at hrest
      obtain ⟨hle, hch⟩ := hrest
      have hshare : taxCalculationService.bracketShare x b = 0 := by
        have h1 : min x mx - b.min ≤ 0 := by
          have := min_le_left x mx
          linarith [hmin ▸ hx]
        simp [taxCalculationService.bracketShare, hb, max_eq_right h1]
      have hrest2 : taxCalculationService.bracketSum rest x = 0 :=
        ih mx hch (by linarith [hmin ▸ hx])
      simp only [taxCalculationService.bracketSum, List.map_cons, List.sum_cons] at hrest2 ⊢
      rw [hshare, hrest2]
      ring
    | none =>
      rw [hb] at hrest
      subst hrest
      have hshare : taxCalculationService.bracketShare x b = 0 := by
        have h1 : x - b.min ≤ 0 := by linarith [hmin ▸ hx]
        simp [taxCalculationService.bracketShare, hb, max_eq_right h1]
      simp [taxCalculationService.bracketSum, hshare]

/-- The stateful `taxCalculationService` bracket walk equals the stateless
bracket sum on any contiguous ascending chain whose unbounded bracket, if
any, comes last. -/
theorem svc_liabilityLoop_eq_bracketSum (bs : List Bracket) (m x : ℚ)
    (h : taxCalculationService.chainFrom m bs) :
    taxCalculationService.liabilityLoop bs 0 (x - m) =
      taxCalculationService.bracketSum bs x := by
  induction bs generalizing m with
  | nil => simp [taxCalculationService.liabilityLoop, taxCalculationService.bracketSum]
  | cons b rest ih =>
    obtain ⟨hmin, hrest⟩ := h
    subst hmin
    cases hb : b.max with
    | some mx =>
      rw [hb] at hrest
      obtain ⟨hle, hch⟩ := hrest
      by_cases h0 : x - b.min ≤ 0
      · rw [svc_liabilityLoop_of_nonpos _ _ h0]
        have hshare : taxCalculationService.bracketShare x b = 0 := by
          have h1 : min x mx - b.min ≤ 0 := by
            have := min_le_left x mx
            linarith
          simp [taxCalculationService.bracketShare, hb, max_eq_right h1]
        have hrest2 : taxCalculationService.bracketSum rest x = 0 :=
          svc_bracketSum_of_le rest mx x hch (by linarith)
        simp only [taxCalculationService.bracketSum, List.map_cons, List.sum_cons] at hrest2 ⊢
        rw [hshare, hrest2]
        ring
      · set t := min (x - b.min) (mx - b.min) with ht
        have hmin_sub : min x mx - b.min = t := by
          rw [ht]
          exact (min_sub_sub_right x mx b.min).symm
        by_cases hpos : 0 < t
        · have hshare : taxCalculationService.bracketShare x b = b.rate * t := by
            simp only [taxCalculationService.bracketShare, hb]
            rw [hmin_sub, max_eq_left hpos.le]
          rw [taxCalculationService.liabilityLoop]
          simp only [if_neg h0, hb, ← ht, if_pos hpos]
          rw [svc_liabilityLoop_acc]
          by_cases hcase : mx - b.min ≤ x - b.min
          · have htw : t = mx - b.min := min_eq_right hcase
            have hrem : x - b.min - t = x - mx := by rw [htw]; ring
            rw [hrem, ih mx hch]
            simp only [taxCalculationService.bracketSum, List.map_cons, List.sum_cons, hshare]
            ring
          · have hxu : x ≤ mx := by
              have := not_le.mp hcase
              linarith
            have htw : t = x - b.min := min_eq_left (le_of_not_le hcase)
            have hrem : x - b.min - t = 0 := by rw [htw]; ring
            rw [hrem, svc_liabilityLoop_of_nonpos rest 0 le_rfl]
            have hrest2 : taxCalculationService.bracketSum rest x = 0 :=
              svc_bracketSum_of_le rest mx x hch hxu
            simp only [taxCalculationService.bracketSum, List.map_cons, List.sum_cons] at hrest2 ⊢
            rw [hshare, hrest2]
            ring
        · have hw0 : mx - b.min ≤ 0 := by
            rcases le_or_lt (mx - b.min) (x - b.min) with hc | hc
            · have : t = mx - b.min := min_eq_right hc
              linarith [not_lt.mp hpos, this ▸ (le_refl t)]
            · have : t = x - b.min := min_eq_left hc.le
              have hx0 : x - b.min ≤ 0 := by
                have := not_lt.mp hpos
                linarith [this]
              exact absurd hx0 h0
          have hmxb : mx = b.min := le_antisymm (by linarith) hle
          have hshare : taxCalculationService.bracketShare x b = 0 := by
            have h1 : min x mx - b.min ≤ 0 := by
              have := min_le_right x mx
              linarith
            simp [taxCalculationService.bracketShare, hb, max_eq_right h1]
          rw [taxCalculationService.liabilityLoop]
          simp only [if_neg h0, hb, ← ht, if_neg hpos]
          have := ih mx hch
          rw [hmxb] at this
          rw [this]
          simp only [taxCalculationService.bracketSum, List.map_cons, List.sum_cons]
          rw [hshare]
          ring
    | none =>
      rw [hb] at hrest
      subst hrest
      by_cases h0 : x - b.min ≤ 0
      · rw [svc_liabilityLoop_of_nonpos _ _ h0]
        have hshare : taxCalculationService.bracketShare x b = 0 := by
          simp [taxCalculationService.bracketShare, hb, max_eq_right h0]
        simp [taxCalculationService.bracketSum, hshare]
      · have hpos : 0 < x - b.min := lt_of_not_le h0
        rw [taxCalculationService.liabilityLoop]
        simp only [if_neg h0, hb, if_pos hpos]
        have hshare : taxCalculationService.bracketShare x b = b.rate * (x - b.min) := by
          simp only [taxCalculationService.bracketShare, hb]
          rw [max_eq_left hpos.le]
        simp only [taxCalculationService.liabilityLoop, taxCalculationService.bracketSum,
          List.map_cons, List.sum_cons, List.map_nil, List.sum_nil, hshare]
        ring

/-- Both `taxCalculationService` bracket tables are contiguous ascending
chains starting at 0 with the unbounded bracket last. -/
theorem svc_chain_getTaxBrackets (fs : FilingStatus) :
    taxCalculationService.chainFrom 0 (taxCalculationService.getTaxBrackets fs) := by
  cases fs <;>
    · simp only [taxCalculationService.getTaxBrackets, taxCalculationService.TAX_BRACKETS_SINGLE,
        taxCalculationService.TAX_BRACKETS_MARRIED, taxCalculationService.chainFrom,
        reduceCtorEq, or_self, or_false, false_or, if_false, if_true, ite_true, ite_false]
      norm_num

/-- `taxCalculationService.calculateTaxLiability` is exactly the stateless
bracket sum over its selected table. -/
theorem svc_calculateTaxLiability_eq_bracketSum (x : ℚ) (fs : FilingStatus) :
    taxCalculationService.calculateTaxLiability x fs =
      taxCalculationService.bracketSum (taxCalculationService.getTaxBrackets fs) x := by
  have h := svc_liabilityLoop_eq_bracketSum (taxCalculationService.getTaxBrackets fs) 0 x
    (svc_chain_getTaxBrackets fs)
  simpa [taxCalculationService.calculateTaxLiability] using h

/-- Every bracket of both `taxCalculationService` tables has a nonnegative
rate. -/
theorem svc_bracket_rate_nonneg (fs : FilingStatus) (b : Bracket)
    (hb : b ∈ taxCalculationService.getTaxBrackets fs) : 0 ≤ b.rate := by
  cases fs <;>
    · simp only [taxCalculationService.getTaxBrackets, taxCalculationService.TAX_BRACKETS_SINGLE,
        taxCalculationService.TAX_BRACKETS_MARRIED, reduceCtorEq, or_self, or_false, false_or,
        if_false, if_true, ite_true, ite_false, List.mem_cons, List.not_mem_nil, or_false] at hb
      rcases hb with rfl | rfl | rfl | rfl | rfl | rfl | rfl <;> norm_num

/-- Each `taxCalculationService` bracket share is nonnegative when the rate
is. -/
theorem svc_bracketShare_nonneg (x : ℚ) (b : Bracket) (hr : 0 ≤ b.rate) :
    0 ≤ taxCalculationService.bracketShare x b := by
  unfold taxCalculationService.bracketShare
  cases b.max <;> exact mul_nonneg hr (le_max_right _ 0)

/-- Each `taxCalculationService` bracket share is monotone in the income when
the rate is nonnegative. -/
theorem svc_bracketShare_mono (x y : ℚ) (b : Bracket) (hr : 0 ≤ b.rate)
    (hxy : x ≤ y) :
    taxCalculationService.bracketShare x b ≤ taxCalculationService.bracketShare y b := by
  unfold taxCalculationService.bracketShare
  cases b.max with
  | some mx =>
    have h1 : min x mx ≤ min y mx := min_le_min hxy le_rfl
    exact mul_le_mul_of_nonneg_left (max_le_max (by linarith) le_rfl) hr
  | none =>
    exact mul_le_mul_of_nonneg_left (max_le_max (by linarith) le_rfl) hr

/-- The `taxCalculationService` bracket sum is nonnegative whenever every
rate is. -/
theorem svc_bracketSum_nonneg (bs : List Bracket) (x : ℚ)
    (h : ∀ b ∈ bs, 0 ≤ b.rate) : 0 ≤ taxCalculationService.bracketSum bs x := by
  refine List.sum_nonneg ?_
  intro q hq
  simp only [List.mem_map] at hq
  obtain ⟨b, hb, rfl⟩ := hq
  exact svc_bracketShare_nonneg x b (h b hb)

/-- The `taxCalculationService` bracket sum is monotone in the income
whenever every rate is nonnegative. -/
theorem svc_bracketSum_mono (bs : List Bracket) (x y : ℚ)
    (h : ∀ b ∈ bs, 0 ≤ b.rate) (hxy : x ≤ y) :
    taxCalculationService.bracketSum bs x ≤ taxCalculationService.bracketSum bs y := by
  refine List.sum_le_sum ?_
  intro b hb
  exact svc_bracketShare_mono x y b (h b hb) hxy

/-! ### Fold-to-sum lemmas and arithmetic helpers -/

/-- Summing income amounts with a `reduce`-style fold equals the list sum. -/
theorem foldl_income_amount (l : List IncomeEntry) (a : ℚ) :
    l.foldl (fun sum entry => sum + entry.amount) a = a + (l.map (fun e => e.amount)).sum := by
  induction l generalizing a with
  | nil => simp
  | cons e rest ih =>
    simp only [List.foldl_cons, List.map_cons, List.sum_cons, ih]
    ring

/-- Summing deduction amounts with a `reduce`-style fold equals the list sum. -/
theorem foldl_deduction_amount (l : List DeductionEntry) (a : ℚ) :
    l.foldl (fun sum entry => sum + entry.amount) a = a + (l.map (fun e => e.amount)).sum := by
  induction l generalizing a with
  | nil => simp
  | cons e rest ih =>
    simp only [List.foldl_cons, List.map_cons, List.sum_cons, ih]
    ring

/-- The `forEach` accumulation of `calculateWithheld` equals the sum of the
per-entry withholding contributions. -/
theorem foldl_withheld (l : List IncomeEntry) (a : ℚ) :
    l.foldl
        (fun withheld entry =>
          if entry.incomeType = .W2_WAGES then withheld + entry.amount * 0.15
          else if entry.incomeType = .INTEREST ∨ entry.incomeType = .DIVIDENDS then
            withheld + entry.amount * 0.10
          else withheld)
        a =
      a + (l.map (fun entry =>
          if entry.incomeType = .W2_WAGES then entry.amount * 0.15
          else if entry.incomeType = .INTEREST ∨ entry.incomeType = .DIVIDENDS then
            entry.amount * 0.10
          else 0)).sum := by
  induction l generalizing a with
  | nil => simp
  | cons e rest ih =>
    simp only [List.foldl_cons, List.map_cons, List.sum_cons, ih]
    split_ifs <;> ring

/-- `max (w − n) 0 · max (n − w) 0 = 0`: at most one of refund and owed is
nonzero in the withholding-aware outcome mode. -/
theorem max_sub_mul_max_sub (w n : ℚ) : max (w - n) 0 * max (n - w) 0 = 0 := by
  rcases le_total w n with h | h
  · rw [max_eq_right (by linarith : w - n ≤ 0), zero_mul]
  · rw [max_eq_right (by linarith : n - w ≤ 0), mul_zero]

/-- The credit-only outcome mode also never returns both a refund and an
amount owed. -/
theorem credit_only_mul_zero (liab credits : ℚ) :
    (if liab < credits then credits - liab else 0) * max (liab - credits) 0 = 0 := by
  by_cases h : liab < credits
  · rw [if_pos h, max_eq_right (by linarith : liab - credits ≤ 0), mul_zero]
  · rw [if_neg h, zero_mul]

/-- Above the cap every marginal share is frozen at its value at the cap. -/
theorem tc_marginalSum_cap (bs : List Bracket) (x : ℚ)
    (hcap : ∀ b ∈ bs, TaxCalculator.upperEdge b ≤ TaxCalculator.MAX_SAFE_INTEGER)
    (hx : TaxCalculator.MAX_SAFE_INTEGER ≤ x) :
    TaxCalculator.marginalSum bs x = TaxCalculator.marginalSum bs TaxCalculator.MAX_SAFE_INTEGER := by
  induction bs with
  | nil => rfl
  | cons b rest ih =>
    have hb : TaxCalculator.upperEdge b ≤ TaxCalculator.MAX_SAFE_INTEGER :=
      hcap b (List.mem_cons_self b rest)
    have hshare : TaxCalculator.marginalShare x b =
        TaxCalculator.marginalShare TaxCalculator.MAX_SAFE_INTEGER b := by
      unfold TaxCalculator.marginalShare
      rw [min_eq_right (hb.trans hx), min_eq_right hb]
    have hrest := ih (fun b' hb' => hcap b' (List.mem_cons_of_mem b hb'))
    simp only [TaxCalculator.marginalSum, List.map_cons, List.sum_cons] at hrest ⊢
    rw [hshare, hrest]

/-- `TaxCalculator.calculateCredits` decomposes as the spec-side Child Tax
Credit formula plus a guarded EITC term. -/
theorem calculateCredits_decompose (dependents : ℕ) (agi : ℚ) (fs : FilingStatus) :
    TaxCalculator.calculateCredits dependents agi fs =
      ctcSpec dependents agi fs +
        (if agi < 50000 ∧ 0 < dependents then TaxCalculator.calculateEITC agi dependents fs
         else 0) := by
  simp only [TaxCalculator.calculateCredits, ctcSpec]
  split_ifs <;> linarith

/-! ### Claim theorems -/

/-- C1: the bracket traversal computes `taxLiability` marginally, low-to-high
— for every filing status and every taxable income it equals the stateless
sum of each bracket's `taxableInBracket × rate` (never a flat rate on the
full amount); in particular, SINGLE under the 2023 schedule at taxable
income $50,000 yields exactly $6,307.50 in both implementations. -/
theorem C1_bracket_marginal_liability :
    (∀ (fs : FilingStatus) (x : ℚ),
        TaxCalculator.calculateTaxLiability x fs =
          TaxCalculator.marginalSum (TaxCalculator.bracketsLookup fs) x) ∧
    (∀ (fs : FilingStatus) (x : ℚ),
        taxCalculationService.calculateTaxLiability x fs =
          taxCalculationService.bracketSum (taxCalculationService.getTaxBrackets fs) x) ∧
    TaxCalculator.calculateTaxLiability 50000 .SINGLE = 6307.5 ∧
    taxCalculationService.calculateTaxLiability 50000 .SINGLE = 6307.5 := by
  refine ⟨fun fs x => tc_calculateTaxLiability_eq_marginalSum x fs,
    fun fs x => svc_calculateTaxLiability_eq_bracketSum x fs, ?_, ?_⟩
  · norm_num [TaxCalculator.calculateTaxLiability, TaxCalculator.bracketsLookup,
      TaxCalculator.TAX_BRACKETS_2023, TaxCalculator.liabilityLoop,
      TaxCalculator.MAX_SAFE_INTEGER]
  · norm_num [taxCalculationService.calculateTaxLiability,
      taxCalculationService.getTaxBrackets,
      taxCalculationService.TAX_BRACKETS_SINGLE, taxCalculationService.liabilityLoop]

/-- C2 (code evaluated at the failing input): the configured 2023 bracket
object has no entry at all for `QUALIFYING_SURVIVING_SPOUSE`, yet the engine
does not fail — `calculateTaxLiability` silently computes with the SINGLE
schedule for it; likewise the service implementation silently hands
`HEAD_OF_HOUSEHOLD` (for which it has no schedule) the SINGLE table. No
`UnknownScheduleError` path exists in either implementation. -/
theorem C2_silent_schedule_fallback :
    TaxCalculator.TAX_BRACKETS_2023 .QUALIFYING_SURVIVING_SPOUSE = none ∧
    (∀ x : ℚ, TaxCalculator.calculateTaxLiability x .QUALIFYING_SURVIVING_SPOUSE =
        TaxCalculator.calculateTaxLiability x .SINGLE) ∧
    taxCalculationService.getTaxBrackets .HEAD_OF_HOUSEHOLD =
      taxCalculationService.TAX_BRACKETS_SINGLE := by
  refine ⟨rfl, fun x => ?_, by simp [taxCalculationService.getTaxBrackets]⟩
  simp [TaxCalculator.calculateTaxLiability, TaxCalculator.bracketsLookup,
    TaxCalculator.TAX_BRACKETS_2023, Option.or]

/-- C7: for every filing status (the year is fixed at 2023 in the source),
the bracket liability is nonnegative for every taxable income and monotone
nondecreasing in taxable income, in both implementations. -/
theorem C7_liability_nonneg_monotone (fs : FilingStatus) (x y : ℚ) :
    (0 ≤ TaxCalculator.calculateTaxLiability x fs ∧
      (x ≤ y →
        TaxCalculator.calculateTaxLiability x fs ≤ TaxCalculator.calculateTaxLiability y fs)) ∧
    (0 ≤ taxCalculationService.calculateTaxLiability x fs ∧
      (x ≤ y →
        taxCalculationService.calculateTaxLiability x fs ≤
          taxCalculationService.calculateTaxLiability y fs)) := by
  have hr1 : ∀ b ∈ TaxCalculator.bracketsLookup fs, 0 ≤ b.rate :=
    fun b hb => (tc_bracket_facts fs b hb).1
  have hr2 : ∀ b ∈ taxCalculationService.getTaxBrackets fs, 0 ≤ b.rate :=
    fun b hb => svc_bracket_rate_nonneg fs b hb
  refine ⟨⟨?_, fun hxy => ?_⟩, ?_, fun hxy => ?_⟩
  · rw [tc_calculateTaxLiability_eq_marginalSum]
    exact tc_marginalSum_nonneg _ x hr1
  · rw [tc_calculateTaxLiability_eq_marginalSum, tc_calculateTaxLiability_eq_marginalSum]
    exact tc_marginalSum_mono _ x y hr1 hxy
  · rw [svc_calculateTaxLiability_eq_bracketSum]
    exact svc_bracketSum_nonneg _ x hr2
  · rw [svc_calculateTaxLiability_eq_bracketSum, svc_calculateTaxLiability_eq_bracketSum]
    exact svc_bracketSum_mono _ x y hr2 hxy

/-- Witness for C7 at filing status SINGLE, incomes $30,000 ≤ $61,150. -/
theorem C7_liability_nonneg_monotone_witness :
    (30000 : ℚ) ≤ 61150 ∧
    0 ≤ TaxCalculator.calculateTaxLiability 30000 .SINGLE ∧
    TaxCalculator.calculateTaxLiability 30000 .SINGLE ≤
      TaxCalculator.calculateTaxLiability 61150 .SINGLE ∧
    0 ≤ taxCalculationService.calculateTaxLiability 30000 .SINGLE ∧
    taxCalculationService.calculateTaxLiability 30000 .SINGLE ≤
      taxCalculationService.calculateTaxLiability 61150 .SINGLE :=
  ⟨by norm_num,
    (C7_liability_nonneg_monotone .SINGLE 30000 61150).1.1,
    (C7_liability_nonneg_monotone .SINGLE 30000 61150).1.2 (by norm_num),
    (C7_liability_nonneg_monotone .SINGLE 30000 61150).2.1,
    (C7_liability_nonneg_monotone .SINGLE 30000 61150).2.2 (by norm_num)⟩

/-- C10: in `TaxCalculator.calculateTaxLiability` the unbounded top bracket's
upper edge is replaced by `Number.MAX_SAFE_INTEGER`, so for any taxable
income at or above that cap the returned liability equals the liability at
the cap — income beyond the cap is left untaxed and the liability plateaus. -/
theorem C10_liability_plateaus_at_max_safe_integer (fs : FilingStatus) (x : ℚ)
    (hx : TaxCalculator.MAX_SAFE_INTEGER ≤ x) :
    TaxCalculator.calculateTaxLiability x fs =
      TaxCalculator.calculateTaxLiability TaxCalculator.MAX_SAFE_INTEGER fs := by
  rw [tc_calculateTaxLiability_eq_marginalSum, tc_calculateTaxLiability_eq_marginalSum]
  exact tc_marginalSum_cap (TaxCalculator.bracketsLookup fs) x
    (fun b hb => (tc_bracket_facts fs b hb).2) hx

/-- Witness for C10 at filing status SINGLE, one dollar above the cap. -/
theorem C10_liability_plateaus_witness :
    TaxCalculator.MAX_SAFE_INTEGER ≤ TaxCalculator.MAX_SAFE_INTEGER + 1 ∧
    TaxCalculator.calculateTaxLiability (TaxCalculator.MAX_SAFE_INTEGER + 1) .SINGLE =
      TaxCalculator.calculateTaxLiability TaxCalculator.MAX_SAFE_INTEGER .SINGLE :=
  ⟨by norm_num,
    C10_liability_plateaus_at_max_safe_integer .SINGLE (TaxCalculator.MAX_SAFE_INTEGER + 1)
      (by norm_num)⟩

/-- C3: the Child Tax Credit component of `calculateCredits` equals
`count × $2000` when AGI is at or below the phase-out threshold ($400,000
for MFJ, else $200,000) and `max(count × $2000 − ⌊(AGI − threshold)/$1000⌋ × $50, 0)`
above it (the count is the function's single `dependents` parameter, which
the caller feeds the dependent count); in particular SINGLE with AGI
$250,000 and 1 qualifying child yields a zero credit. -/
theorem C3_child_tax_credit_phaseout (dependents : ℕ) (agi : ℚ) (fs : FilingStatus) :
    TaxCalculator.calculateCredits dependents agi fs =
      ctcSpec dependents agi fs +
        (if agi < 50000 ∧ 0 < dependents then TaxCalculator.calculateEITC agi dependents fs
         else 0) ∧
    ctcSpec 1 250000 .SINGLE = 0 ∧
    TaxCalculator.calculateCredits 1 250000 .SINGLE = 0 := by
  refine ⟨calculateCredits_decompose dependents agi fs, ?_, ?_⟩
  · simp only [ctcSpec, reduceCtorEq, if_false]
    norm_num
  · simp only [TaxCalculator.calculateCredits, TaxCalculator.calculateEITC,
      reduceCtorEq, if_false]
    norm_num

/-- C4: the EITC is added only when the dependent count is positive and AGI
is under $50,000; `calculateEITC` itself follows the spec's tier table
($3733 / $6164 / $6935 by dependent count), phase-out starts ($25,220 MFJ,
else $19,330) and phase-out rate 0.2106, floored at zero. -/
theorem C4_eitc_inclusion_and_formula (agi : ℚ) (dependents : ℕ) (fs : FilingStatus) :
    (¬(0 < dependents ∧ agi < 50000) →
        TaxCalculator.calculateCredits dependents agi fs = ctcSpec dependents agi fs) ∧
    ((0 < dependents ∧ agi < 50000) →
        TaxCalculator.calculateCredits dependents agi fs =
          ctcSpec dependents agi fs + TaxCalculator.calculateEITC agi dependents fs) ∧
    TaxCalculator.calculateEITC agi dependents fs = eitcSpec dependents agi fs := by
  refine ⟨fun h => ?_, fun h => ?_, rfl⟩
  · rw [calculateCredits_decompose, if_neg (fun hc => h ⟨hc.2, hc.1⟩), add_zero]
  · rw [calculateCredits_decompose, if_pos ⟨h.2, h.1⟩]

/-- Witness for C4: no EITC at AGI $60,000 with one dependent; EITC added
for MFJ at AGI $30,000 with two dependents. -/
theorem C4_eitc_inclusion_witness :
    ¬((0:ℕ) < 1 ∧ (60000:ℚ) < 50000) ∧
    TaxCalculator.calculateCredits 1 60000 .SINGLE = ctcSpec 1 60000 .SINGLE ∧
    ((0:ℕ) < 2 ∧ (30000:ℚ) < 50000) ∧
    TaxCalculator.calculateCredits 2 30000 .MARRIED_FILING_JOINTLY =
      ctcSpec 2 30000 .MARRIED_FILING_JOINTLY +
        TaxCalculator.calculateEITC 30000 2 .MARRIED_FILING_JOINTLY :=
  ⟨by norm_num,
    (C4_eitc_inclusion_and_formula 60000 1 .SINGLE).1 (by norm_num),
    by norm_num,
    (C4_eitc_inclusion_and_formula 30000 2 .MARRIED_FILING_JOINTLY).2.1 (by norm_num)⟩

/-- C5: in both implementations the itemized deduction is the sum of the
deduction entries' amounts and
`taxableIncome = max(AGI − max(standardDeduction, itemizedDeduction), 0)`. -/
theorem C5_deduction_selection (input : TaxCalculator.TaxCalculationInput)
    (tr : taxCalculationService.TaxReturnData) :
    (TaxCalculator.calculateTax input).itemizedDeduction =
      (input.deductionEntries.map (fun e => e.amount)).sum ∧
    (TaxCalculator.calculateTax input).taxableIncome =
      max ((TaxCalculator.calculateTax input).adjustedGrossIncome -
        max (TaxCalculator.calculateTax input).standardDeduction
          (TaxCalculator.calculateTax input).itemizedDeduction) 0 ∧
    (taxCalculationService.calculateTaxes tr).itemizedDeduction =
      (tr.deductionEntries.map (fun e => e.amount)).sum ∧
    (taxCalculationService.calculateTaxes tr).taxableIncome =
      max ((taxCalculationService.calculateTaxes tr).adjustedGrossIncome -
        max (taxCalculationService.calculateTaxes tr).standardDeduction
          (taxCalculationService.calculateTaxes tr).itemizedDeduction) 0 := by
  refine ⟨?_, rfl, ?_, rfl⟩
  · simp only [TaxCalculator.calculateTax]
    rw [foldl_deduction_amount]
    ring
  · simp only [taxCalculationService.calculateTaxes]
    rw [foldl_deduction_amount]
    ring

/-- C6 counterexample: on the empty input the withholding-aware engine
returns `refundAmount = 0` and `amountOwed = 0` simultaneously, refuting
"exactly one of refundAmount and amountOwed is nonzero / they are never both
zero". -/
theorem C6_counterexample_both_zero :
    (TaxCalculator.calculateTax emptyInput).refundAmount = 0 ∧
    (TaxCalculator.calculateTax emptyInput).amountOwed = 0 := by
  simp only [TaxCalculator.calculateTax, emptyInput, TaxCalculator.calculateAGI,
    TaxCalculator.calculateCredits, TaxCalculator.calculateEITC,
    TaxCalculator.calculateWithheld, TaxCalculator.calculateTaxLiability,
    TaxCalculator.bracketsLookup, TaxCalculator.TAX_BRACKETS_2023,
    TaxCalculator.STANDARD_DEDUCTIONS_2023, TaxCalculator.liabilityLoop,
    Option.or, Option.getD, List.foldl_nil, reduceCtorEq, if_false]
  norm_num

/-- C6 amended: for every input, `refundAmount × amountOwed = 0` (at most one
of the two is nonzero) in both implementations; both can be zero at once,
e.g. when withholding exactly equals the net tax. -/
theorem C6_amended_at_most_one_nonzero (input : TaxCalculator.TaxCalculationInput)
    (tr : taxCalculationService.TaxReturnData) :
    (TaxCalculator.calculateTax input).refundAmount *
        (TaxCalculator.calculateTax input).amountOwed = 0 ∧
    (taxCalculationService.calculateTaxes tr).refundAmount *
        (taxCalculationService.calculateTaxes tr).amountOwed = 0 := by
  constructor
  · simp only [TaxCalculator.calculateTax]
    exact max_sub_mul_max_sub _ _
  · simp only [taxCalculationService.calculateTaxes]
    exact credit_only_mul_zero _ _

/-- C8: the withholding estimate sums, over the income entries, 15% of the
amount for W2_WAGES, 10% for INTEREST and DIVIDENDS, and 0% for every other
income type. -/
theorem C8_withholding_estimate (entries : List IncomeEntry) :
    TaxCalculator.calculateWithheld entries =
      (entries.map (fun entry =>
        if entry.incomeType = .W2_WAGES then entry.amount * 0.15
        else if entry.incomeType = .INTEREST ∨ entry.incomeType = .DIVIDENDS then
          entry.amount * 0.10
        else 0)).sum := by
  unfold TaxCalculator.calculateWithheld
  rw [foldl_withheld]
  ring

/-- C9: the credit-only implementation's `totalCredits` is always
`(# dependents with isQualifyingChild) × $2000`, with no phase-out and no
EITC; on a SINGLE return with $250,000 of W-2 wages and one qualifying
child it returns $2,000 while the withholding-aware implementation returns
$0 on the same data. -/
theorem C9_credit_only_differs :
    (∀ tr : taxCalculationService.TaxReturnData,
        (taxCalculationService.calculateTaxes tr).totalCredits =
          ((tr.dependents.filter (fun dep => dep.isQualifyingChild)).length : ℚ) * 2000) ∧
    (taxCalculationService.calculateTaxes return250k).totalCredits = 2000 ∧
    (TaxCalculator.calculateTax input250k).totalCredits = 0 ∧
    (taxCalculationService.calculateTaxes return250k).totalCredits ≠
      (TaxCalculator.calculateTax input250k).totalCredits := by
  have h1 : ∀ tr : taxCalculationService.TaxReturnData,
      (taxCalculationService.calculateTaxes tr).totalCredits =
        ((tr.dependents.filter (fun dep => dep.isQualifyingChild)).length : ℚ) * 2000 := by
    intro tr
    simp only [taxCalculationService.calculateTaxes, taxCalculationService.calculateCredits]
    ring
  have h2 : (taxCalculationService.calculateTaxes return250k).totalCredits = 2000 := by
    rw [h1]
    norm_num [return250k]
  have h3 : (TaxCalculator.calculateTax input250k).totalCredits = 0 := by
    simp only [TaxCalculator.calculateTax, input250k, TaxCalculator.calculateAGI,
      TaxCalculator.calculateCredits, TaxCalculator.calculateEITC,
      List.foldl_cons, List.foldl_nil, reduceCtorEq, if_false]
    norm_num
  exact ⟨h1, h2, h3, by rw [h2, h3]; norm_num⟩
